import Mathlib

/-!
Shallow embedding of the core of the `pam-client` crate: the payload-carrying
error type (`src/error.rs`) and the non-interactive conversation handler
(`src/conv_mock.rs`), together with proofs of the specified properties.

Modelling conventions:
* `ReturnCode` (`pam_sys::types::PamReturnCode`) is a closed C enum of
  status codes; it is modelled as `Int` (the values of the C enum), with
  `SUCCESS = 0` as in the PAM convention.
* The backend handle is used only through `strerror(handle, code)`; it is
  modelled as a function `ReturnCode → Option String` passed explicitly.
* A Rust panic (the `assert_ne!` in the constructors) is modelled by the
  constructor returning `none`.
* `CString` values are modelled by the `String` they carry; `CString::new`
  fails exactly when the string contains an embedded NUL byte, which for
  UTF-8 data means a character with code point 0.
-/

namespace PamClient

/-- Status codes of the PAM backend (`PamReturnCode` as its integer values). -/
abbrev ReturnCode := Int

/-- The reserved success value of the status code enumeration. -/
def ReturnCode.SUCCESS : ReturnCode := 0

/-- Error codes (`crate::error::ErrorCode`), also integer status values.
`CONV_ERR = 19` is the PAM conversation-error code. -/
abbrev ErrorCode := Int

def ErrorCode.CONV_ERR : ErrorCode := 19

/-- The error payload type for errors that never have payloads
(`NoPayload` in `src/error.rs`): an uninhabited type. -/
inductive NoPayload : Type

/-- Base error type for PAM operations, possibly with a payload
(`ErrorWith<T>` in `src/error.rs`). -/
structure ErrorWith (T : Type) : Type where
  code : ReturnCode
  msg : String
  payload : Option T

/-- Error type without payload: `type Error = ErrorWith<NoPayload>`. -/
abbrev Error := ErrorWith NoPayload

namespace ErrorWith

/-- `ErrorWith::with_payload(handle, code, payload)`: asserts
`code != SUCCESS` (panic modelled as `none`), resolves the message through
`strerror` on the handle (empty string when unavailable) and stores the
payload. -/
def with_payload {T : Type} (strerror : ReturnCode → Option String)
    (code : ReturnCode) (payload : Option T) : Option (ErrorWith T) :=
  if code = ReturnCode.SUCCESS then
    none
  else
    some { code := code
           msg := match strerror code with
                  | none => ""
                  | some s => s
           payload := payload }

/-- `ErrorWith::message()`: the text representation if non-empty. -/
def message {T : Type} (e : ErrorWith T) : Option String :=
  if e.msg.isEmpty then none else some e.msg

/-- `ErrorWith::take_payload()`: moves the payload out; returns the old
payload together with the mutated error. -/
def take_payload {T : Type} (e : ErrorWith T) : Option T × ErrorWith T :=
  match e.payload with
  | some _ => (e.payload, { e with payload := none })
  | none => (none, e)

/-- `ErrorWith::drop_payload()`: discards any payload, yielding an `Error`. -/
def drop_payload {T : Type} (e : ErrorWith T) : Error :=
  { code := e.code, msg := e.msg, payload := none }

/-- `ErrorWith::map(func)`: transforms the payload if present. -/
def map {T U : Type} (e : ErrorWith T) (func : T → U) : ErrorWith U :=
  { code := e.code
    msg := e.msg
    payload := match e.payload with
               | none => none
               | some object => some (func object) }

/-- The `Display` rendering of an error (`impl Display for ErrorWith<T>`):
the message verbatim when non-empty, otherwise the code in angle brackets. -/
def fmt {T : Type} (e : ErrorWith T) : String :=
  if e.msg.isEmpty then "<" ++ toString e.code ++ ">" else e.msg

/-- Equality on `Option` values relative to an equality test on the
elements (Rust `Option<T>: PartialEq` given `T: PartialEq`). -/
def optionEq {T : Type} (eqT : T → T → Bool) : Option T → Option T → Bool
  | none, none => true
  | some a, some b => eqT a b
  | _, _ => false

/-- `impl PartialEq for ErrorWith<T>`: equality compares code and payload
only; the message is excluded. -/
def beq {T : Type} (eqT : T → T → Bool) (e1 e2 : ErrorWith T) : Bool :=
  (e1.code == e2.code) && optionEq eqT e1.payload e2.payload

/-- The words an `Option<T>` feeds to the hasher: a discriminant, then the
hash of the contained value when present. -/
def optionHash {T : Type} (hashT : T → Int) : Option T → List Int
  | none => [0]
  | some a => [1, hashT a]

/-- `impl Hash for ErrorWith<T>`: the sequence of words fed to the hasher —
the code as `i32`, then the payload; the message is not hashed. -/
def hash {T : Type} (hashT : T → Int) (e : ErrorWith T) : List Int :=
  e.code :: optionHash hashT e.payload

end ErrorWith

namespace Error

/-- `Error::new(handle, code)`: asserts `code != SUCCESS` (panic modelled as
`none`), resolves the message through `strerror`, never stores a payload. -/
def new (strerror : ReturnCode → Option String) (code : ReturnCode) :
    Option Error :=
  if code = ReturnCode.SUCCESS then
    none
  else
    some { code := code
           msg := match strerror code with
                  | none => ""
                  | some s => s
           payload := none }

/-- `Error::into_with_payload(payload)`: attaches a payload. -/
def into_with_payload {T : Type} (e : Error) (payload : T) : ErrorWith T :=
  { code := e.code, msg := e.msg, payload := some payload }

/-- `impl TryFrom<ReturnCode> for Error`: fails exactly on `SUCCESS`,
otherwise yields an error with empty message and no payload. -/
def try_from (code : ReturnCode) : Except Unit Error :=
  if code = ReturnCode.SUCCESS then
    Except.error ()
  else
    Except.ok { code := code, msg := "", payload := none }

end Error

/-- Elements of `Conversation::log` (`LogEntry` in `src/conv_mock.rs`);
the carried `CString` is modelled by its text. -/
inductive LogEntry : Type where
  | Info (msg : String)
  | Error (msg : String)
deriving DecidableEq

/-- Whether a string contains an embedded NUL character. -/
def containsNul (s : String) : Bool :=
  s.toList.any (fun c => c.toNat == 0)

/-- `CString::new(s)`: fails exactly when the string has an embedded NUL. -/
def cstring_new (s : String) : Option String :=
  if containsNul s then none else some s

/-- Non-interactive conversation handler (`Conversation` in
`src/conv_mock.rs`). -/
structure Conversation : Type where
  username : String
  password : String
  log : List LogEntry

namespace Conversation

/-- `Conversation::new()`. -/
def new : Conversation :=
  { username := "", password := "", log := [] }

/-- `Conversation::with_credentials(username, password)`. -/
def with_credentials (username password : String) : Conversation :=
  { username := username, password := password, log := [] }

/-- `Conversation::clear_log()`. -/
def clear_log (c : Conversation) : Conversation :=
  { c with log := [] }

/-- `Conversation::errors()`: only the error messages, in order. -/
def errors (c : Conversation) : List String :=
  c.log.filterMap (fun x =>
    match x with
    | LogEntry.Info _ => none
    | LogEntry.Error msg => some msg)

/-- `Conversation::infos()`: only the info messages, in order. -/
def infos (c : Conversation) : List String :=
  c.log.filterMap (fun x =>
    match x with
    | LogEntry.Info msg => some msg
    | LogEntry.Error _ => none)

/-- `ConversationHandler::init(default_user)` for `Conversation`: adopts
the default username only when the current one is empty. -/
def init (c : Conversation) (default_user : Option String) : Conversation :=
  match default_user with
  | some user =>
      if c.username.isEmpty then { c with username := user } else c
  | none => c

/-- `prompt_echo_on(msg)`: the username re-encoded as a C string,
`CONV_ERR` when that fails. -/
def prompt_echo_on (c : Conversation) (_msg : String) :
    Except ErrorCode String :=
  match cstring_new c.username with
  | some s => Except.ok s
  | none => Except.error ErrorCode.CONV_ERR

/-- `prompt_echo_off(msg)`: the password re-encoded as a C string,
`CONV_ERR` when that fails. -/
def prompt_echo_off (c : Conversation) (_msg : String) :
    Except ErrorCode String :=
  match cstring_new c.password with
  | some s => Except.ok s
  | none => Except.error ErrorCode.CONV_ERR

/-- `text_info(msg)`: appends an `Info` entry to the log. -/
def text_info (c : Conversation) (msg : String) : Conversation :=
  { c with log := c.log ++ [LogEntry.Info msg] }

/-- `error_msg(msg)`: appends an `Error` entry to the log. -/
def error_msg (c : Conversation) (msg : String) : Conversation :=
  { c with log := c.log ++ [LogEntry.Error msg] }

/-- `radio_prompt(msg)`: always answers `false`. -/
def radio_prompt (_c : Conversation) (_msg : String) :
    Except ErrorCode Bool :=
  Except.ok false

end Conversation

/-- Claim C1: `take_payload` is idempotent: the first call returns the stored
payload (the payload itself when present, `none` otherwise) and leaves an
error whose `payload` accessor returns `none`; a second `take_payload` on the
result returns `none` and changes nothing. -/
theorem take_payload_idempotent {T : Type} (e : ErrorWith T) :
    e.take_payload.1 = e.payload ∧
    e.take_payload.2.payload = none ∧
    e.take_payload.2.take_payload = (none, e.take_payload.2) := by
  cases h : e.payload <;>
    simp [ErrorWith.take_payload, h]

/-- Claim C4: `map f` preserves `code`, `msg` and hence `message`, maps a
present payload through `f` (absent stays absent), and applies `f` exactly
once when the payload is present and never otherwise (witnessed by the
application counter). -/
theorem map_preserves_code_message {T U : Type} (e : ErrorWith T) (f : T → U) :
    (e.map f).code = e.code ∧
    (e.map f).msg = e.msg ∧
    (e.map f).message = e.message ∧
    (e.map f).payload = (match e.payload with
                         | none => none
                         | some p => some (f p)) ∧
    (e.map (fun t => (f t, 1))).payload.elim 0 (fun q => q.2) =
      (if e.payload.isSome then 1 else 0) := by
  cases h : e.payload <;>
    simp [ErrorWith.map, ErrorWith.message, h]

/-- Claim C5: `drop_payload` followed by `into_with_payload v` preserves
`code`, `msg` and `message` and yields payload `some v`. -/
theorem drop_payload_into_with_payload {T U : Type} (e : ErrorWith T) (v : U) :
    (e.drop_payload.into_with_payload v).code = e.code ∧
    (e.drop_payload.into_with_payload v).msg = e.msg ∧
    (e.drop_payload.into_with_payload v).message = e.message ∧
    (e.drop_payload.into_with_payload v).payload = some v := by
  simp [ErrorWith.drop_payload, Error.into_with_payload, ErrorWith.message]

/-- Claim C2: both constructors reject the success code (the panic is
modelled as `none`); for any non-success code they return an error carrying
exactly that code and the given payload (`none` for `Error::new`), and no
constructed error ever carries the success code. -/
theorem construct_rejects_success {T : Type}
    (strerror : ReturnCode → Option String) (code : ReturnCode)
    (payload : Option T) (h : code ≠ ReturnCode.SUCCESS) :
    ErrorWith.with_payload strerror ReturnCode.SUCCESS payload = none ∧
    Error.new strerror ReturnCode.SUCCESS = none ∧
    (∃ e, ErrorWith.with_payload strerror code payload = some e ∧
      e.code = code ∧ e.payload = payload) ∧
    (∃ e, Error.new strerror code = some e ∧ e.code = code ∧
      e.payload = none) ∧
    (∀ e, ErrorWith.with_payload strerror code payload = some e →
      e.code ≠ ReturnCode.SUCCESS) := by
  refine ⟨by simp [ErrorWith.with_payload], by simp [Error.new], ?_, ?_, ?_⟩
  · exact ⟨⟨code, match strerror code with
              | none => ""
              | some s => s, payload⟩,
      by simp [ErrorWith.with_payload, h], rfl, rfl⟩
  · exact ⟨⟨code, match strerror code with
              | none => ""
              | some s => s, none⟩,
      by simp [Error.new, h], rfl, rfl⟩
  · intro e he
    simp only [ErrorWith.with_payload, if_neg h, Option.some.injEq] at he
    rw [← he]
    exact h

/-- Witness for C2 at a concrete non-success code. -/
theorem construct_rejects_success_witness :
    (19 : ReturnCode) ≠ ReturnCode.SUCCESS ∧
    (∃ e, ErrorWith.with_payload (fun _ => none) (19 : ReturnCode)
        (some (5 : Nat)) = some e ∧ e.code = 19 ∧ e.payload = some 5) :=
  ⟨by decide,
   (construct_rejects_success (fun _ => none) 19 (some 5) (by decide)).2.2.1⟩

/-- Claim C3: equality of `ErrorWith` values holds iff the codes agree and
the payloads are equal; the message is excluded (changing the messages never
changes the comparison), the hash is computed only from code and payload
(changing the message never changes it), and — given a hash compatible with
the element equality — equal errors hash equal. -/
theorem eq_and_hash_ignore_message {T : Type} (eqT : T → T → Bool)
    (hashT : T → Int)
    (hcompat : ∀ a b, eqT a b = true → hashT a = hashT b)
    (e1 e2 : ErrorWith T) :
    (ErrorWith.beq eqT e1 e2 = true ↔
      (e1.code = e2.code ∧
        ErrorWith.optionEq eqT e1.payload e2.payload = true)) ∧
    (∀ m1 m2, ErrorWith.beq eqT { e1 with msg := m1 } { e2 with msg := m2 } =
      ErrorWith.beq eqT e1 e2) ∧
    (∀ m, ErrorWith.hash hashT { e1 with msg := m } =
      ErrorWith.hash hashT e1) ∧
    (ErrorWith.beq eqT e1 e2 = true →
      ErrorWith.hash hashT e1 = ErrorWith.hash hashT e2) := by
  refine ⟨?_, fun m1 m2 => rfl, fun m => rfl, ?_⟩
  · simp [ErrorWith.beq, Bool.and_eq_true]
  · intro hbeq
    rw [ErrorWith.beq, Bool.and_eq_true, beq_iff_eq] at hbeq
    obtain ⟨hc, hp⟩ := hbeq
    rw [ErrorWith.hash, ErrorWith.hash, hc]
    revert hp
    cases e1.payload <;> cases e2.payload <;> intro hp
    · rfl
    · exact absurd hp (by simp [ErrorWith.optionEq])
    · exact absurd hp (by simp [ErrorWith.optionEq])
    · simp only [ErrorWith.optionEq] at hp
      simp [ErrorWith.optionHash, hcompat _ _ hp]

/-- Witness for C3 with boolean payloads: the hash is compatible with
equality, and two errors with equal code and payload but different messages
compare equal. -/
theorem eq_and_hash_ignore_message_witness :
    (∀ a b : Bool, (a == b) = true →
      (if a then (1 : Int) else 0) = (if b then 1 else 0)) ∧
    ErrorWith.beq (fun a b : Bool => a == b)
      ⟨19, "locale text A", some true⟩ ⟨19, "locale text B", some true⟩ =
      true :=
  ⟨by decide,
   ((eq_and_hash_ignore_message (fun a b : Bool => a == b)
      (fun b => if b then 1 else 0) (by decide)
      ⟨19, "locale text A", some true⟩ ⟨19, "locale text B", some true⟩).1).mpr
     ⟨rfl, by decide⟩⟩

/-- Claim C8: `TryFrom` fails exactly on the success code; on any other code
it succeeds with that code, no payload, and an empty stored message, so
`message()` on the result is `none`. -/
theorem try_from_success_iff (code : ReturnCode)
    (h : code ≠ ReturnCode.SUCCESS) :
    Error.try_from ReturnCode.SUCCESS = Except.error () ∧
    (∀ c, Error.try_from c = Except.error () → c = ReturnCode.SUCCESS) ∧
    (∃ e, Error.try_from code = Except.ok e ∧ e.code = code ∧
      e.payload = none ∧ e.msg = "" ∧ e.message = none) := by
  refine ⟨by simp [Error.try_from], ?_, ?_⟩
  · intro c hc
    by_contra hne
    simp [Error.try_from, hne] at hc
  · exact ⟨⟨code, "", none⟩, by simp [Error.try_from, h], rfl, rfl, rfl,
      by simp [ErrorWith.message, String.isEmpty_iff]⟩

/-- Witness for C8 at a concrete non-success code. -/
theorem try_from_success_iff_witness :
    (6 : ReturnCode) ≠ ReturnCode.SUCCESS ∧
    (∃ e, Error.try_from (6 : ReturnCode) = Except.ok e ∧ e.code = 6 ∧
      e.payload = none ∧ e.msg = "" ∧ e.message = none) :=
  ⟨by decide, (try_from_success_iff 6 (by decide)).2.2⟩

/-- Claim C9: `init` adopts a supplied default username only when the current
username is empty; a preset username, or a missing default, leaves it
unchanged, and `init` never touches password or log. -/
theorem init_adopts_default_only_if_empty (c : Conversation) (u : String) :
    c.init none = c ∧
    (c.username = "" → c.init (some u) = { c with username := u }) ∧
    (c.username ≠ "" → c.init (some u) = c) ∧
    (c.init (some u)).password = c.password ∧
    (c.init (some u)).log = c.log := by
  refine ⟨rfl, ?_, ?_, ?_, ?_⟩
  · intro h
    simp [Conversation.init, String.isEmpty_iff, h]
  · intro h
    simp [Conversation.init, String.isEmpty_iff, h]
  · rw [Conversation.init]
    cases c.username.isEmpty <;> simp
  · rw [Conversation.init]
    cases c.username.isEmpty <;> simp

/-- Witness for C9: an empty username adopts the default, a preset one
takes precedence. -/
theorem init_adopts_default_only_if_empty_witness :
    Conversation.init ⟨"", "pw", []⟩ (some "bob") = ⟨"bob", "pw", []⟩ ∧
    Conversation.init ⟨"alice", "pw", []⟩ (some "bob") =
      ⟨"alice", "pw", []⟩ :=
  ⟨(init_adopts_default_only_if_empty ⟨"", "pw", []⟩ "bob").2.1 rfl,
   (init_adopts_default_only_if_empty ⟨"alice", "pw", []⟩ "bob").2.2.1
     (by decide)⟩

/-- Claim C10: the `Display` rendering is the stored message verbatim when
non-empty, and otherwise the integer code in angle brackets; the payload
never influences the rendering. -/
theorem display_message_or_code {T : Type} (e : ErrorWith T) :
    (e.msg ≠ "" → e.fmt = e.msg) ∧
    (e.msg = "" → e.fmt = "<" ++ toString e.code ++ ">") ∧
    (∀ p : Option T, ErrorWith.fmt { e with payload := p } = e.fmt) := by
  refine ⟨?_, ?_, fun p => rfl⟩
  · intro h
    have hb : e.msg.isEmpty = false := by
      cases hh : e.msg.isEmpty
      · rfl
      · exact absurd ((String.isEmpty_iff e.msg).mp hh) h
    simp [ErrorWith.fmt, hb]
  · intro h
    have hb : e.msg.isEmpty = true := (String.isEmpty_iff e.msg).mpr h
    simp [ErrorWith.fmt, hb]

/-- Witness for C10 at concrete errors with and without a message. -/
theorem display_message_or_code_witness :
    ((⟨19, "boom", some 5⟩ : ErrorWith Nat).msg ≠ "" ∧
      (⟨19, "boom", some 5⟩ : ErrorWith Nat).fmt = "boom") ∧
    ((⟨19, "", some 5⟩ : ErrorWith Nat).msg = "" ∧
      (⟨19, "", some 5⟩ : ErrorWith Nat).fmt =
        "<" ++ toString (19 : Int) ++ ">") :=
  ⟨⟨by decide, (display_message_or_code ⟨19, "boom", some 5⟩).1 (by decide)⟩,
   ⟨rfl, (display_message_or_code ⟨19, "", some 5⟩).2.1 rfl⟩⟩

/-- The error messages and info messages of a log together account for its
full length. -/
theorem errors_infos_length_aux (l : List LogEntry) :
    (l.filterMap (fun x => match x with
      | LogEntry.Info _ => none
      | LogEntry.Error msg => some msg)).length +
    (l.filterMap (fun x => match x with
      | LogEntry.Info msg => some msg
      | LogEntry.Error _ => none)).length = l.length := by
  induction l with
  | nil => rfl
  | cons a t ih =>
    cases a <;> simp only [List.filterMap_cons, List.length_cons] <;> omega

/-- The error messages, re-tagged, form a sublist of the log (order is
preserved). -/
theorem errors_sublist_aux (l : List LogEntry) :
    List.Sublist ((l.filterMap (fun x => match x with
      | LogEntry.Info _ => none
      | LogEntry.Error msg => some msg)).map LogEntry.Error) l := by
  induction l with
  | nil => simp
  | cons a t ih =>
    cases a with
    | Info m =>
        simpa [List.filterMap_cons] using List.Sublist.cons (LogEntry.Info m) ih
    | Error m =>
        simpa [List.filterMap_cons] using
          List.Sublist.cons₂ (LogEntry.Error m) ih

/-- The info messages, re-tagged, form a sublist of the log (order is
preserved). -/
theorem infos_sublist_aux (l : List LogEntry) :
    List.Sublist ((l.filterMap (fun x => match x with
      | LogEntry.Info msg => some msg
      | LogEntry.Error _ => none)).map LogEntry.Info) l := by
  induction l with
  | nil => simp
  | cons a t ih =>
    cases a with
    | Info m =>
        simpa [List.filterMap_cons] using
          List.Sublist.cons₂ (LogEntry.Info m) ih
    | Error m =>
        simpa [List.filterMap_cons] using List.Sublist.cons (LogEntry.Error m) ih

/-- Every log entry lands in exactly the filtered sequence matching its
tag. -/
theorem log_entry_in_partition_aux (l : List LogEntry) (x : LogEntry)
    (hx : x ∈ l) :
    (∃ s, x = LogEntry.Info s ∧ s ∈ l.filterMap (fun x => match x with
      | LogEntry.Info msg => some msg
      | LogEntry.Error _ => none)) ∨
    (∃ s, x = LogEntry.Error s ∧ s ∈ l.filterMap (fun x => match x with
      | LogEntry.Info _ => none
      | LogEntry.Error msg => some msg)) := by
  cases x with
  | Info m =>
      exact Or.inl ⟨m, rfl,
        List.mem_filterMap.mpr ⟨LogEntry.Info m, hx, rfl⟩⟩
  | Error m =>
      exact Or.inr ⟨m, rfl,
        List.mem_filterMap.mpr ⟨LogEntry.Error m, hx, rfl⟩⟩

/-- Claim C6: `errors` and `infos` partition the log exactly — their lengths
sum to the log length, each preserves recording order (is a sublist of the
log after re-tagging), every entry lands in exactly the sequence of its tag,
and `text_info` / `error_msg` each append exactly one `Info` / `Error`
entry. -/
theorem errors_infos_partition (c : Conversation) (m : String) :
    c.errors.length + c.infos.length = c.log.length ∧
    List.Sublist (c.errors.map LogEntry.Error) c.log ∧
    List.Sublist (c.infos.map LogEntry.Info) c.log ∧
    (∀ x ∈ c.log,
      (∃ s, x = LogEntry.Info s ∧ s ∈ c.infos) ∨
      (∃ s, x = LogEntry.Error s ∧ s ∈ c.errors)) ∧
    (c.text_info m).log = c.log ++ [LogEntry.Info m] ∧
    (c.error_msg m).log = c.log ++ [LogEntry.Error m] ∧
    (c.text_info m).infos = c.infos ++ [m] ∧
    (c.text_info m).errors = c.errors ∧
    (c.error_msg m).errors = c.errors ++ [m] ∧
    (c.error_msg m).infos = c.infos := by
  refine ⟨errors_infos_length_aux c.log, errors_sublist_aux c.log,
    infos_sublist_aux c.log, log_entry_in_partition_aux c.log, rfl, rfl,
    ?_, ?_, ?_, ?_⟩ <;>
    simp [Conversation.text_info, Conversation.error_msg,
      Conversation.errors, Conversation.infos, List.filterMap_append]

/-- Witness for C6: in a concrete two-entry log, the `Info` entry lands in
`infos`. -/
theorem errors_infos_partition_witness :
    (LogEntry.Info "x" ∈
      (Conversation.mk "a" "b" [LogEntry.Info "x", LogEntry.Error "y"]).log) ∧
    ((∃ s, LogEntry.Info "x" = LogEntry.Info s ∧
        s ∈ (Conversation.mk "a" "b"
          [LogEntry.Info "x", LogEntry.Error "y"]).infos) ∨
      (∃ s, LogEntry.Info "x" = LogEntry.Error s ∧
        s ∈ (Conversation.mk "a" "b"
          [LogEntry.Info "x", LogEntry.Error "y"]).errors)) :=
  ⟨by decide,
   (errors_infos_partition
      ⟨"a", "b", [LogEntry.Info "x", LogEntry.Error "y"]⟩ "m").2.2.2.1
     (LogEntry.Info "x") (by decide)⟩

/-- Claim C7: `prompt_echo_on` fails with `CONV_ERR` exactly when the stored
username contains an embedded NUL, and otherwise returns the username
re-encoded as a C string; `prompt_echo_off` behaves identically for the
stored password. -/
theorem prompt_echo_returns_credentials (c : Conversation) (msg : String) :
    (c.prompt_echo_on msg = Except.error ErrorCode.CONV_ERR ↔
      containsNul c.username = true) ∧
    (c.prompt_echo_on msg = Except.ok c.username ↔
      containsNul c.username = false) ∧
    (c.prompt_echo_off msg = Except.error ErrorCode.CONV_ERR ↔
      containsNul c.password = true) ∧
    (c.prompt_echo_off msg = Except.ok c.password ↔
      containsNul c.password = false) := by
  cases hu : containsNul c.username <;> cases hp : containsNul c.password <;>
    simp [Conversation.prompt_echo_on, Conversation.prompt_echo_off,
      cstring_new, hu, hp]

/-- Witness for C7: a NUL-free username is returned verbatim, a username
with an embedded NUL fails with `CONV_ERR`. -/
theorem prompt_echo_returns_credentials_witness :
    containsNul "alice" = false ∧
    Conversation.prompt_echo_on ⟨"alice", "s3cret", []⟩ "Login:" =
      Except.ok "alice" :=
  ⟨by decide,
   ((prompt_echo_returns_credentials
      ⟨"alice", "s3cret", []⟩ "Login:").2.1).mpr (by decide)⟩

end PamClient
